import Mathlib

/-!
Verification development for the workflow orchestration core of
`aws-lambda-builders` (`src/aws_lambda_builders/workflow.py`).

The embedding below translates the Python source into Lean definitions:

* `sanitize` (the binary-validation gate decorating `run`) becomes
  `gatePhase`/`sanitize` over an explicit `Workflow` state record;
* the `binaries` property (lazy, cached computation of the binary map)
  becomes `Workflow.binariesAccess`, which returns the mapping, the updated
  state, and a flag recording whether the compute branch ran;
* `BaseWorkflow.run`'s action loop becomes `runActions`/`runInner`;
* `_WorkflowMetaClass.__new__` and the capability registry become
  `registerClass`/`registryInsert`/`registryLookup`.

Collaborator classes that `workflow.py` imports from sibling modules of the
repository (`BinaryPath`, `PathResolver`, `RuntimeValidator`, the exception
types, `ActionFailedError`, `DEFAULT_REGISTRY`) are not part of the provided
source; they are modelled from the spec, with doc comments saying so.
-/

namespace LambdaBuilders

/-- Modelled from the spec: a Resolver (the repository's `PathResolver`,
whose module is not among the provided sources) "exposes a logical binary
name and an ordered sequence of candidate filesystem paths to try". -/
structure Resolver where
  binary : String
  exec_paths : List String
deriving DecidableEq, Repr

/-- Modelled from the spec: the outcome of one call to a Validator's
`validate(path)`. The Validator "either returns a usable, normalized path
... or signals a runtime mismatch"; "any other unexpected fault from the
Validator is not swallowed". Python truthiness of the returned value is kept
by treating the empty string as a falsy return. -/
inductive VResult where
  | ok (path : String)
  | misMatch (msg : String)
  | err (msg : String)
deriving DecidableEq, Repr

/-- Modelled from the spec: a Validator (the repository's `RuntimeValidator`
module is not among the provided sources) is its `validate` behaviour. -/
abbrev Validator := String → VResult

/-- Modelled from the spec: a Binary Requirement (the repository's
`BinaryPath`, whose module is not among the provided sources) "binds a
logical binary name to one resolver, one validator, and an optional
user-overridden path". The `binary_path` field holds the caller's override
"path (or list of paths)" and is the mutable slot the gate overwrites with
the finally-validated path; `path_provided` records whether the caller
supplied an override. -/
structure BinaryPath where
  resolver : Resolver
  validator : Validator
  binary : String
  binary_path : List String
  path_provided : Bool

/-- Constructor mirroring `BinaryPath.__init__`: `path_provided` is true
exactly when a (non-empty) override was supplied. -/
def mkBinaryPath (resolver : Resolver) (validator : Validator) (binary : String)
    (binary_path : List String) : BinaryPath :=
  { resolver := resolver, validator := validator, binary := binary,
    binary_path := binary_path, path_provided := !binary_path.isEmpty }

/-- Modelled from the spec: the outcome of one Action's `execute()` — it
"either completes or signals a failure"; the recognized failure category is
the action-failed fault (`ActionFailedError`, whose module is not among the
provided sources), anything else is an unrecognized fault. -/
inductive ExecResult where
  | ok
  | actionFailed (reason : String)
  | unknownErr (reason : String)
deriving DecidableEq, Repr

/-- An Action: "a single named, describable build step with an execute
operation" (`workflow.py` reads `action.NAME` and calls `action.execute()`). -/
structure Action where
  NAME : String
  execute : ExecResult
deriving DecidableEq, Repr

/-- Modelled from the spec: the faults `run()` can surface
(`WorkflowFailedError`, `WorkflowUnknownError` from the repository's
exceptions module, which is not among the provided sources), plus a
propagated unexpected Validator fault, which the gate does not catch. -/
inductive RunError where
  | workflowFailed (workflow_name : String) (action_name : Option String) (reason : String)
  | workflowUnknown (workflow_name : String) (action_name : Option String) (reason : String)
  | validatorFault (msg : String)
deriving DecidableEq, Repr

/-- A `BaseWorkflow` instance: its `NAME`, registered `actions`, the outputs
of the `get_resolvers`/`get_validators` extension points, and the `_binaries`
cache backing the `binaries` property (empty list models the initial empty
dict). -/
structure Workflow where
  NAME : String
  actions : List Action
  get_resolvers : List Resolver
  get_validators : List Validator
  _binaries : List (String × BinaryPath)

/-- Python dict assignment `m[k] = v` on an insertion-ordered mapping:
replace in place when the key exists, append otherwise. -/
def dictInsert (m : List (String × BinaryPath)) (k : String) (v : BinaryPath) :
    List (String × BinaryPath) :=
  if m.any (fun p => p.1 = k) then
    m.map (fun p => if p.1 = k then (k, v) else p)
  else
    m ++ [(k, v)]

/-- The dict comprehension in the `binaries` property:
`{resolver.binary: BinaryPath(resolver=resolver, validator=validator,
binary=resolver.binary) for resolver, validator in zip(resolvers, validators)}`. -/
def buildBinaries (resolvers : List Resolver) (validators : List Validator) :
    List (String × BinaryPath) :=
  (resolvers.zip validators).foldl
    (fun m rv => dictInsert m rv.1.binary (mkBinaryPath rv.1 rv.2 rv.1.binary []))
    []

/-- One read of the `binaries` property: if the `_binaries` cache is empty
(Python: `if not self._binaries`), invoke the extension points, build the
mapping, store it, and return it; otherwise return the cache. The `Bool`
records whether the compute branch ran. -/
def Workflow.binariesAccess (w : Workflow) : List (String × BinaryPath) × Workflow × Bool :=
  if w._binaries.isEmpty then
    let b := buildBinaries w.get_resolvers w.get_validators
    (b, { w with _binaries := b }, true)
  else
    (w._binaries, w, false)

/-- The `binaries` property setter. -/
def Workflow.setBinaries (w : Workflow) (b : List (String × BinaryPath)) : Workflow :=
  { w with _binaries := b }

/-- Line 42 of `workflow.py`: the candidate list is
`binary_path.resolver.exec_paths if not binary_path.path_provided else
binary_path.binary_path`. -/
def candidatesOf (bp : BinaryPath) : List String :=
  if bp.path_provided then bp.binary_path else bp.resolver.exec_paths

/-- The inner candidate loop of `sanitize` for a single requirement: try
each candidate in order; a truthy validator return is the valid path (stop),
a `MisMatchRuntimeError` or falsy return moves to the next candidate, and
any other exception propagates (`Except.error`). -/
def findValidPath (validator : Validator) : List String → Except String (Option String)
  | [] => Except.ok none
  | p :: rest =>
    match validator p with
    | VResult.ok s => if s = "" then findValidPath validator rest else Except.ok (some s)
    | VResult.misMatch _ => findValidPath validator rest
    | VResult.err m => Except.error m

/-- The outer loop of `sanitize` over `binaries_copy.items()`: returns the
updated mapping (each satisfied requirement's `binary_path` overwritten with
its valid path), the collected `valid_paths`, and the message of a
propagated validator fault if one stopped the loop. -/
def gateScan : List (String × BinaryPath) →
    List (String × BinaryPath) × List String × Option String
  | [] => ([], [], none)
  | nb :: rest =>
    match findValidPath nb.2.validator (candidatesOf nb.2) with
    | Except.error m => (nb :: rest, [], some m)
    | Except.ok none =>
      let r := gateScan rest
      (nb :: r.1, r.2.1, r.2.2)
    | Except.ok (some p) =>
      let r := gateScan rest
      ((nb.1, { nb.2 with binary_path := [p] }) :: r.1, p :: r.2.1, r.2.2)

/-- Reason string of the gate's failure (`workflow.py` line 58). -/
def binaryValidationFailedMsg : String := "Binary validation failed!"

/-- Reason string of the empty-pipeline failure (`workflow.py` line 228). -/
def noActionsMsg : String := "Workflow does not have any actions registered"

/-- Result of invoking `run()` on a workflow: the names are kept abstract as
the ordered list of Actions whose `execute()` was invoked, the fault raised
(if any), and the final instance state. -/
structure RunOutcome where
  executed : List Action
  error : Option RunError
  final : Workflow

/-- Lines 54–59 of `workflow.py`: after the scan, `self.binaries =
binaries_copy` (the setter), then `self.binaries` is read again and its
size compared with `len(valid_paths)`; a mismatch raises
`WorkflowFailedError(workflow_name=self.NAME, action_name=None,
reason='Binary validation failed!')`, otherwise the wrapped function runs
on the post-gate state (`Sum.inr`). -/
def gateCheck (w1 : Workflow) (scanned : List (String × BinaryPath)) (valid_paths : List String) :
    RunOutcome ⊕ Workflow :=
  if ((w1.setBinaries scanned).binariesAccess).1.length ≠ valid_paths.length then
    Sum.inl { executed := [],
              error := some (RunError.workflowFailed
                (((w1.setBinaries scanned).binariesAccess).2.1).NAME none binaryValidationFailedMsg),
              final := ((w1.setBinaries scanned).binariesAccess).2.1 }
  else
    Sum.inr ((w1.setBinaries scanned).binariesAccess).2.1

/-- The body of the `sanitize` wrapper up to the call of the wrapped `run`:
read `self.binaries` (possibly computing it), scan every requirement,
then perform the write-back and length check (`gateCheck`); a validator
fault propagates uncaught (`.inl` with `validatorFault`). -/
def gatePhase (w : Workflow) : RunOutcome ⊕ Workflow :=
  match (gateScan (w.binariesAccess).1).2.2 with
  | some m =>
    Sum.inl { executed := [], error := some (RunError.validatorFault m),
              final := ((w.binariesAccess).2.1).setBinaries (gateScan (w.binariesAccess).1).1 }
  | none =>
    gateCheck ((w.binariesAccess).2.1) ((gateScan (w.binariesAccess).1).1)
      ((gateScan (w.binariesAccess).1).2.1)

/-- The `sanitize` decorator: run the gate, then the wrapped function. -/
def sanitize (func : Workflow → RunOutcome) (w : Workflow) : RunOutcome :=
  match gatePhase w with
  | Sum.inl outcome => outcome
  | Sum.inr w3 => func w3

/-- The `for action in self.actions` loop of `BaseWorkflow.run`: execute in
order; an `ActionFailedError` becomes a `WorkflowFailedError` naming the
workflow and the action, any other exception a `WorkflowUnknownError`. -/
def runActions (wname : String) : List Action → List Action × Option RunError
  | [] => ([], none)
  | a :: rest =>
    match a.execute with
    | ExecResult.ok =>
      let r := runActions wname rest
      (a :: r.1, r.2)
    | ExecResult.actionFailed reason =>
      ([a], some (RunError.workflowFailed wname (some a.NAME) reason))
    | ExecResult.unknownErr reason =>
      ([a], some (RunError.workflowUnknown wname (some a.NAME) reason))

/-- The body of `BaseWorkflow.run` (after the gate): fail when no actions
are registered, otherwise run the pipeline. -/
def runInner (w : Workflow) : RunOutcome :=
  if w.actions.isEmpty then
    { executed := [],
      error := some (RunError.workflowFailed w.NAME none noActionsMsg),
      final := w }
  else
    let r := runActions w.NAME w.actions
    { executed := r.1, error := r.2, final := w }

/-- `run = sanitize(run-body)`: the decorated entry point. -/
def Workflow.run (w : Workflow) : RunOutcome := sanitize runInner w

/-- A full Capability value as Python sees the namedtuple: each component
may be `None` (the namedtuple does not enforce population). -/
structure Capability where
  language : Option String
  dependency_manager : Option String
  application_framework : Option String
deriving DecidableEq, Repr

/-- A candidate Workflow type as the metaclass `__new__` sees it: the class
`__name__`, the `__TESTING__` marker, `NAME` (`none` models any value that
is not a string, including Python `None`), and `CAPABILITY` (`none` models
any value that is not a `Capability` instance). -/
structure WorkflowClass where
  cls_name : String
  testing : Bool
  NAME : Option String
  CAPABILITY : Option Capability
deriving DecidableEq, Repr

/-- Modelled from the spec: `DEFAULT_REGISTRY` (the repository's registry
module is not among the provided sources) is a "process-wide mapping from
Capability Key to Workflow type". -/
abbrev Registry := List (Capability × WorkflowClass)

/-- Dict assignment `DEFAULT_REGISTRY[cls.CAPABILITY] = cls`. -/
def registryInsert (r : Registry) (k : Capability) (v : WorkflowClass) : Registry :=
  if r.any (fun p => p.1 = k) then
    r.map (fun p => if p.1 = k then (k, v) else p)
  else
    r ++ [(k, v)]

/-- Registry lookup by Capability Key. -/
def registryLookup (r : Registry) (k : Capability) : Option WorkflowClass :=
  (r.find? (fun p => p.1 = k)).map (fun p => p.2)

/-- `_WorkflowMetaClass.__new__`: skip the base class and test-marked
classes; require `isinstance(cls.NAME, six.string_types)` and
`isinstance(cls.CAPABILITY, Capability)` (raising `ValueError` otherwise);
then register under the capability key. -/
def registerClass (r : Registry) (cls : WorkflowClass) : Except String Registry :=
  if cls.cls_name = "BaseWorkflow" ∨ cls.testing then
    Except.ok r
  else
    match cls.NAME with
    | none => Except.error "Workflow must provide a valid name"
    | some nm =>
      match cls.CAPABILITY with
      | none => Except.error ("Workflow '" ++ nm ++ "' must register valid capabilities")
      | some cap => Except.ok (registryInsert r cap cls)

/-- Whether a single requirement is satisfied by the gate: its candidate
scan ends with a valid path. -/
def satisfiedEntry (nb : String × BinaryPath) : Bool :=
  match findValidPath nb.2.validator (candidatesOf nb.2) with
  | Except.ok (some _) => true
  | _ => false

/-- What the scan does to a single requirement entry when no validator
fault stops the loop: a satisfied requirement gets its valid path written
into `binary_path`, an unsatisfied one is left untouched. -/
def updateEntry (nb : String × BinaryPath) : String × BinaryPath :=
  match findValidPath nb.2.validator (candidatesOf nb.2) with
  | Except.ok (some p) => (nb.1, { nb.2 with binary_path := [p] })
  | _ => nb

theorem gateScan_cons_err {nb : String × BinaryPath} {rest : List (String × BinaryPath)}
    {m : String} (hf : findValidPath nb.2.validator (candidatesOf nb.2) = Except.error m) :
    gateScan (nb :: rest) = (nb :: rest, [], some m) := by
  unfold gateScan
  rw [hf]

theorem gateScan_cons_none {nb : String × BinaryPath} {rest : List (String × BinaryPath)}
    (hf : findValidPath nb.2.validator (candidatesOf nb.2) = Except.ok none) :
    gateScan (nb :: rest) =
      (nb :: (gateScan rest).1, (gateScan rest).2.1, (gateScan rest).2.2) := by
  conv_lhs => unfold gateScan
  rw [hf]

theorem gateScan_cons_some {nb : String × BinaryPath} {rest : List (String × BinaryPath)}
    {p : String} (hf : findValidPath nb.2.validator (candidatesOf nb.2) = Except.ok (some p)) :
    gateScan (nb :: rest) =
      ((nb.1, { nb.2 with binary_path := [p] }) :: (gateScan rest).1,
        p :: (gateScan rest).2.1, (gateScan rest).2.2) := by
  conv_lhs => unfold gateScan
  rw [hf]

theorem gateScan_fst_length (l : List (String × BinaryPath)) :
    (gateScan l).1.length = l.length := by
  induction l with
  | nil => rfl
  | cons nb rest ih =>
    unfold gateScan
    cases hf : findValidPath nb.2.validator (candidatesOf nb.2) with
    | error m => simp
    | ok o => cases o <;> simpa using ih

theorem gateScan_noerr_count (l : List (String × BinaryPath))
    (h : (gateScan l).2.2 = none) :
    (gateScan l).2.1.length = l.countP satisfiedEntry := by
  induction l with
  | nil => rfl
  | cons nb rest ih =>
    cases hf : findValidPath nb.2.validator (candidatesOf nb.2) with
    | error m => rw [gateScan_cons_err hf] at h; simp at h
    | ok o =>
      have hsat : satisfiedEntry nb = o.isSome := by
        unfold satisfiedEntry
        rw [hf]
        cases o <;> rfl
      cases o with
      | none =>
        rw [gateScan_cons_none hf] at h ⊢
        simp only at h
        simp [List.countP_cons, hsat, ih h]
      | some p =>
        rw [gateScan_cons_some hf] at h ⊢
        simp only at h
        simp [List.countP_cons, hsat, ih h]

theorem gateScan_noerr_map (l : List (String × BinaryPath))
    (h : (gateScan l).2.2 = none) :
    (gateScan l).1 = l.map updateEntry := by
  induction l with
  | nil => rfl
  | cons nb rest ih =>
    cases hf : findValidPath nb.2.validator (candidatesOf nb.2) with
    | error m => rw [gateScan_cons_err hf] at h; simp at h
    | ok o =>
      cases o with
      | none =>
        have hupd : updateEntry nb = nb := by
          unfold updateEntry
          rw [hf]
        rw [gateScan_cons_none hf] at h ⊢
        simp only at h
        simp [List.map_cons, hupd, ih h]
      | some p =>
        have hupd : updateEntry nb = (nb.1, { nb.2 with binary_path := [p] }) := by
          unfold updateEntry
          rw [hf]
        rw [gateScan_cons_some hf] at h ⊢
        simp only at h
        simp [List.map_cons, hupd, ih h]

theorem countP_lt_length_of_mem {α : Type} {p : α → Bool} {l : List α} {x : α}
    (hmem : x ∈ l) (hx : p x = false) : l.countP p < l.length := by
  induction l with
  | nil => cases hmem
  | cons a t ih =>
    rw [List.countP_cons, List.length_cons]
    rcases List.mem_cons.mp hmem with h | h
    · subst h
      rw [hx]
      simpa using Nat.lt_succ_of_le (List.countP_le_length p)
    · cases hpa : p a with
      | true => simpa using Nat.succ_lt_succ (ih h)
      | false => simpa using Nat.lt_succ_of_lt (ih h)

theorem binariesAccess_of_ne_nil (w : Workflow) (h : w._binaries ≠ []) :
    w.binariesAccess = (w._binaries, w, false) := by
  unfold Workflow.binariesAccess
  rw [if_neg (by simpa using h)]

theorem binariesAccess_actions (w : Workflow) :
    ((w.binariesAccess).2.1).actions = w.actions := by
  unfold Workflow.binariesAccess
  split <;> rfl

theorem binariesAccess_NAME (w : Workflow) :
    ((w.binariesAccess).2.1).NAME = w.NAME := by
  unfold Workflow.binariesAccess
  split <;> rfl

theorem gatePhase_of_err {w : Workflow} {m : String}
    (h : (gateScan (w.binariesAccess).1).2.2 = some m) :
    gatePhase w =
      Sum.inl { executed := [], error := some (RunError.validatorFault m),
                final := ((w.binariesAccess).2.1).setBinaries (gateScan (w.binariesAccess).1).1 } := by
  unfold gatePhase
  rw [h]

theorem gatePhase_of_noerr {w : Workflow}
    (h : (gateScan (w.binariesAccess).1).2.2 = none) :
    gatePhase w = gateCheck ((w.binariesAccess).2.1) ((gateScan (w.binariesAccess).1).1)
      ((gateScan (w.binariesAccess).1).2.1) := by
  unfold gatePhase
  rw [h]

theorem gatePhase_inr_fields {w w' : Workflow} (h : gatePhase w = Sum.inr w') :
    w'.actions = w.actions ∧ w'.NAME = w.NAME := by
  cases hscan : (gateScan (w.binariesAccess).1).2.2 with
  | some m => rw [gatePhase_of_err hscan] at h; exact Sum.noConfusion h
  | none =>
    rw [gatePhase_of_noerr hscan] at h
    unfold gateCheck at h
    split at h
    · exact Sum.noConfusion h
    · injection h with h'
      subst h'
      refine ⟨?_, ?_⟩
      · rw [binariesAccess_actions]
        exact binariesAccess_actions w
      · rw [binariesAccess_NAME]
        exact binariesAccess_NAME w

theorem setBinaries_NAME (w : Workflow) (b : List (String × BinaryPath)) :
    (w.setBinaries b).NAME = w.NAME := rfl

theorem setBinaries_actions (w : Workflow) (b : List (String × BinaryPath)) :
    (w.setBinaries b).actions = w.actions := rfl

/-- Shared helper: when the scan completes without a propagated validator
fault but some requirement is unsatisfied, `run` raises the
binary-validation-failed `WorkflowFailedError` and executes no action. -/
theorem run_gate_unsatisfied (w : Workflow) (b : List (String × BinaryPath))
    (hb : (w.binariesAccess).1 = b)
    (hnoerr : (gateScan b).2.2 = none)
    (hunsat : ∃ nb ∈ b, satisfiedEntry nb = false) :
    w.run.error = some (RunError.workflowFailed w.NAME none binaryValidationFailedMsg) ∧
    w.run.executed = [] := by
  obtain ⟨nb, hmem, hsat⟩ := hunsat
  have hbne : b ≠ [] := List.ne_nil_of_mem hmem
  have hlen : (gateScan b).1.length = b.length := gateScan_fst_length b
  have hcount : (gateScan b).2.1.length = b.countP satisfiedEntry :=
    gateScan_noerr_count b hnoerr
  have hlt : b.countP satisfiedEntry < b.length := countP_lt_length_of_mem hmem hsat
  have hscanne : (gateScan b).1 ≠ [] := by
    intro hnil
    rw [hnil] at hlen
    exact hbne (List.length_eq_zero.mp hlen.symm)
  have hacc : (((w.binariesAccess).2.1).setBinaries (gateScan b).1).binariesAccess
      = ((gateScan b).1, ((w.binariesAccess).2.1).setBinaries (gateScan b).1, false) :=
    binariesAccess_of_ne_nil _ hscanne
  have hscan' : (gateScan (w.binariesAccess).1).2.2 = none := by rw [hb]; exact hnoerr
  unfold Workflow.run sanitize
  rw [gatePhase_of_noerr hscan']
  unfold gateCheck
  rw [hb, hacc]
  rw [if_pos ?cond]
  case cond =>
    show (gateScan b).1.length ≠ (gateScan b).2.1.length
    rw [hlen, hcount]
    exact Nat.ne_of_gt hlt
  refine ⟨?_, rfl⟩
  show some (RunError.workflowFailed
    ((((w.binariesAccess).2.1).setBinaries (gateScan b).1).NAME) none binaryValidationFailedMsg) = _
  rw [setBinaries_NAME, binariesAccess_NAME]

/-- C1: for every Workflow with at least one Binary Requirement for which
no candidate path validates (every validator call during the scan either
accepts a candidate or rejects it with a runtime mismatch / falsy return —
an unexpected validator fault is the separate propagation case of C2),
`run()` raises a `WorkflowFailedError` naming the Workflow, with no action
attributed and reason "Binary validation failed!", and no Action's execute
is ever invoked. -/
theorem C1_unsatisfied_requirement_fails_run (w : Workflow) (b : List (String × BinaryPath))
    (hb : (w.binariesAccess).1 = b)
    (hnoerr : (gateScan b).2.2 = none)
    (hunsat : ∃ nb ∈ b, satisfiedEntry nb = false) :
    w.run.error = some (RunError.workflowFailed w.NAME none binaryValidationFailedMsg) ∧
    w.run.executed = [] :=
  run_gate_unsatisfied w b hb hnoerr hunsat

/-- A validator that rejects every candidate with a runtime mismatch. -/
def mismatchValidator : Validator := fun _ => VResult.misMatch "runtime mismatch"

/-- A resolver offering a single candidate for the `python` binary. -/
def pythonResolver : Resolver := { binary := "python", exec_paths := ["/usr/bin/python"] }

/-- Workflow whose single requirement has no validating candidate. -/
def gateFailWorkflow : Workflow :=
  { NAME := "PythonPipBuilder",
    actions := [{ NAME := "CopySource", execute := ExecResult.ok }],
    get_resolvers := [pythonResolver],
    get_validators := [mismatchValidator],
    _binaries := [] }

theorem C1_witness :
    gateFailWorkflow.run.error =
      some (RunError.workflowFailed "PythonPipBuilder" none binaryValidationFailedMsg) ∧
    gateFailWorkflow.run.executed = [] :=
  C1_unsatisfied_requirement_fails_run gateFailWorkflow
    [("python", mkBinaryPath pythonResolver mismatchValidator "python" [])]
    rfl rfl
    ⟨("python", mkBinaryPath pythonResolver mismatchValidator "python" []),
      List.mem_singleton.mpr rfl, rfl⟩

theorem findValidPath_cons_mismatch {v : Validator} {c s : String}
    (hs : v c = VResult.misMatch s) (rest : List String) :
    findValidPath v (c :: rest) = findValidPath v rest := by
  conv_lhs => unfold findValidPath
  rw [hs]

theorem findValidPath_cons_ok {v : Validator} {c p : String}
    (hp : v c = VResult.ok p) (hne : p ≠ "") (rest : List String) :
    findValidPath v (c :: rest) = Except.ok (some p) := by
  conv_lhs => unfold findValidPath
  rw [hp]
  simp [hne]

theorem findValidPath_cons_fault {v : Validator} {c m : String}
    (hm : v c = VResult.err m) (rest : List String) :
    findValidPath v (c :: rest) = Except.error m := by
  conv_lhs => unfold findValidPath
  rw [hm]

theorem findValidPath_append_rejected (v : Validator) (pre rest : List String)
    (hpre : ∀ x ∈ pre, ∃ s, v x = VResult.misMatch s) :
    findValidPath v (pre ++ rest) = findValidPath v rest := by
  induction pre with
  | nil => rfl
  | cons c t ih =>
    obtain ⟨s, hs⟩ := hpre c (List.mem_cons_self c t)
    rw [List.cons_append, findValidPath_cons_mismatch hs]
    exact ih (fun x hx => hpre x (List.mem_cons_of_mem c hx))

/-- C2: the gate tries a requirement's candidates in order — after any
run of mismatch-rejected candidates, the first candidate the Validator
accepts determines the result and stops the iteration; a mismatch moves to
the next candidate; an unexpected validator fault surfaces at that point;
a satisfied requirement's entry in the scanned mapping records the
validator-returned path; and a propagated fault is not caught by the gate:
it aborts `run()` before any Action executes. -/
theorem C2_candidate_order (w : Workflow) (b : List (String × BinaryPath))
    (v : Validator) (pre post : List String) (c p pm m pr mr : String)
    (i : Nat) (n : String) (bp : BinaryPath)
    (hb : (w.binariesAccess).1 = b)
    (hpre : ∀ x ∈ pre, ∃ s, v x = VResult.misMatch s) :
    (v c = VResult.ok p → p ≠ "" →
      findValidPath v (pre ++ c :: post) = Except.ok (some p)) ∧
    (v c = VResult.misMatch pm →
      findValidPath v (c :: post) = findValidPath v post) ∧
    (v c = VResult.err m →
      findValidPath v (pre ++ c :: post) = Except.error m) ∧
    ((gateScan b).2.2 = none → b[i]? = some (n, bp) →
      findValidPath bp.validator (candidatesOf bp) = Except.ok (some pr) →
      ((gateScan b).1)[i]? = some (n, { bp with binary_path := [pr] })) ∧
    ((gateScan b).2.2 = some mr →
      w.run.error = some (RunError.validatorFault mr) ∧ w.run.executed = []) := by
  refine ⟨?_, ?_, ?_, ?_, ?_⟩
  · intro hv hp
    rw [findValidPath_append_rejected v pre _ hpre, findValidPath_cons_ok hv hp]
  · intro hm
    exact findValidPath_cons_mismatch hm post
  · intro hm
    rw [findValidPath_append_rejected v pre _ hpre, findValidPath_cons_fault hm]
  · intro hnoerr hi hf
    rw [gateScan_noerr_map b hnoerr, List.getElem?_map, hi]
    have : updateEntry (n, bp) = (n, { bp with binary_path := [pr] }) := by
      unfold updateEntry
      rw [show (n, bp).2 = bp from rfl, hf]
    rw [Option.map_some', this]
  · intro hscanerr
    have hs' : (gateScan (w.binariesAccess).1).2.2 = some mr := by rw [hb]; exact hscanerr
    unfold Workflow.run sanitize
    rw [gatePhase_of_err hs']
    exact ⟨rfl, rfl⟩

/-- A validator accepting exactly `/usr/bin/tool` and mismatching others. -/
def toolValidator : Validator := fun path =>
  if path = "/usr/bin/tool" then VResult.ok path else VResult.misMatch "incompatible runtime"

/-- A resolver offering two ordered candidates for the `tool` binary. -/
def toolResolver : Resolver :=
  { binary := "tool", exec_paths := ["/opt/bin/tool", "/usr/bin/tool"] }

/-- Workflow for the end-to-end two-candidate scenario. -/
def toolWorkflow : Workflow :=
  { NAME := "ToolBuilder",
    actions := [{ NAME := "Build", execute := ExecResult.ok }],
    get_resolvers := [toolResolver],
    get_validators := [toolValidator],
    _binaries := [] }

theorem C2_witness :
    (gateScan [("tool", mkBinaryPath toolResolver toolValidator "tool" [])]).1[0]? =
      some ("tool",
        { mkBinaryPath toolResolver toolValidator "tool" [] with
            binary_path := ["/usr/bin/tool"] }) :=
  (C2_candidate_order toolWorkflow
    [("tool", mkBinaryPath toolResolver toolValidator "tool" [])]
    toolValidator ["/opt/bin/tool"] [] "/usr/bin/tool" "/usr/bin/tool" "" "" "/usr/bin/tool" ""
    0 "tool" (mkBinaryPath toolResolver toolValidator "tool" [])
    rfl
    (by
      intro x hx
      rw [List.mem_singleton] at hx
      subst hx
      exact ⟨"incompatible runtime", rfl⟩)).2.2.2.1 rfl rfl rfl

/-- C3: the gate's candidate set (line 42 of `workflow.py`, consumed by the
scan loop) is exactly the caller-supplied override path(s) when
`path_provided` is set — the Resolver's list is not consulted — and exactly
the Resolver's ordered `exec_paths` otherwise; a requirement built with a
non-empty override has `path_provided` set, one built without it does not. -/
theorem C3_override_short_circuits_resolver (bp : BinaryPath) (r : Resolver) (v : Validator)
    (n : String) (ps : List String) :
    (bp.path_provided = true → candidatesOf bp = bp.binary_path) ∧
    (bp.path_provided = false → candidatesOf bp = bp.resolver.exec_paths) ∧
    (ps ≠ [] → (mkBinaryPath r v n ps).path_provided = true ∧
      candidatesOf (mkBinaryPath r v n ps) = ps) ∧
    ((mkBinaryPath r v n []).path_provided = false ∧
      candidatesOf (mkBinaryPath r v n []) = r.exec_paths) := by
  refine ⟨?_, ?_, ?_, rfl, rfl⟩
  · intro h
    unfold candidatesOf
    rw [h]
    rfl
  · intro h
    unfold candidatesOf
    rw [h]
    rfl
  · intro hps
    have hpp : (mkBinaryPath r v n ps).path_provided = true := by
      unfold mkBinaryPath
      simpa using hps
    refine ⟨hpp, ?_⟩
    unfold candidatesOf
    rw [hpp]
    rfl

theorem C3_witness :
    candidatesOf (mkBinaryPath toolResolver toolValidator "tool" ["/custom/tool"]) =
      ["/custom/tool"] :=
  ((C3_override_short_circuits_resolver
      (mkBinaryPath toolResolver toolValidator "tool" [])
      toolResolver toolValidator "tool" ["/custom/tool"]).2.2.1
    (List.cons_ne_nil _ _)).2

theorem runActions_cons_ok {a : Action} (ha : a.execute = ExecResult.ok)
    (wname : String) (rest : List Action) :
    runActions wname (a :: rest) =
      (a :: (runActions wname rest).1, (runActions wname rest).2) := by
  conv_lhs => unfold runActions
  rw [ha]

theorem runActions_cons_actionFailed {a : Action} {r : String}
    (ha : a.execute = ExecResult.actionFailed r) (wname : String) (rest : List Action) :
    runActions wname (a :: rest) =
      ([a], some (RunError.workflowFailed wname (some a.NAME) r)) := by
  conv_lhs => unfold runActions
  rw [ha]

theorem runActions_cons_unknown {a : Action} {r : String}
    (ha : a.execute = ExecResult.unknownErr r) (wname : String) (rest : List Action) :
    runActions wname (a :: rest) =
      ([a], some (RunError.workflowUnknown wname (some a.NAME) r)) := by
  conv_lhs => unfold runActions
  rw [ha]

theorem runActions_append_ok (wname : String) (pre rest : List Action)
    (hpre : ∀ x ∈ pre, x.execute = ExecResult.ok) :
    runActions wname (pre ++ rest) =
      (pre ++ (runActions wname rest).1, (runActions wname rest).2) := by
  induction pre with
  | nil => simp
  | cons a t ih =>
    rw [List.cons_append, runActions_cons_ok (hpre a (List.mem_cons_self a t))]
    rw [ih (fun x hx => hpre x (List.mem_cons_of_mem a hx))]
    simp

/-- C4: for a Workflow whose gate passes and whose Action list is
[A1, A2, A3], if A1 succeeds and A2 signals an action failure, `run()`
executes A1 then A2 in that order, never invokes A3, and raises a
`WorkflowFailedError` recording the Workflow name, A2's name and the
failure reason. -/
theorem C4_action_failed_stops_pipeline (w w' : Workflow) (a1 a2 a3 : Action) (r : String)
    (hg : gatePhase w = Sum.inr w') (ha : w.actions = [a1, a2, a3])
    (h1 : a1.execute = ExecResult.ok) (h2 : a2.execute = ExecResult.actionFailed r) :
    w.run.executed = [a1, a2] ∧
    w.run.error = some (RunError.workflowFailed w.NAME (some a2.NAME) r) := by
  obtain ⟨hact, hname⟩ := gatePhase_inr_fields hg
  have hrun : w.run = runInner w' := by
    unfold Workflow.run sanitize
    rw [hg]
  rw [hrun]
  unfold runInner
  rw [hact, ha, hname]
  rw [if_neg (by simp)]
  rw [runActions_cons_ok h1, runActions_cons_actionFailed h2]
  exact ⟨rfl, rfl⟩

def actionOk : Action := { NAME := "CopySource", execute := ExecResult.ok }

def actionFailing : Action := { NAME := "ResolveDeps", execute := ExecResult.actionFailed "pip failed" }

def actionNever : Action := { NAME := "Compile", execute := ExecResult.ok }

/-- Workflow with no binary requirements (gate passes) and three actions,
the middle one failing. -/
def pipelineWorkflow : Workflow :=
  { NAME := "PipelineBuilder", actions := [actionOk, actionFailing, actionNever],
    get_resolvers := [], get_validators := [], _binaries := [] }

theorem C4_witness :
    pipelineWorkflow.run.executed = [actionOk, actionFailing] ∧
    pipelineWorkflow.run.error =
      some (RunError.workflowFailed "PipelineBuilder" (some "ResolveDeps") "pip failed") :=
  C4_action_failed_stops_pipeline pipelineWorkflow pipelineWorkflow
    actionOk actionFailing actionNever "pip failed" rfl rfl rfl rfl

/-- C5: for a Workflow whose gate passes, when the first failing Action of
the pipeline raises a fault that is not an action-failed fault, `run()`
stops there, never invokes any later Action, and raises the distinct
`WorkflowUnknownError` recording the Workflow name, the failing Action's
name and the stringified cause. -/
theorem C5_unknown_fault_stops_pipeline (w w' : Workflow) (pre post : List Action)
    (a : Action) (r : String)
    (hg : gatePhase w = Sum.inr w') (ha : w.actions = pre ++ a :: post)
    (hpre : ∀ x ∈ pre, x.execute = ExecResult.ok)
    (hx : a.execute = ExecResult.unknownErr r) :
    w.run.executed = pre ++ [a] ∧
    w.run.error = some (RunError.workflowUnknown w.NAME (some a.NAME) r) := by
  obtain ⟨hact, hname⟩ := gatePhase_inr_fields hg
  have hrun : w.run = runInner w' := by
    unfold Workflow.run sanitize
    rw [hg]
  rw [hrun]
  unfold runInner
  rw [hact, ha, hname]
  rw [if_neg (by simp)]
  rw [runActions_append_ok _ pre _ hpre, runActions_cons_unknown hx]
  exact ⟨rfl, rfl⟩

def actionCrashing : Action := { NAME := "Unpack", execute := ExecResult.unknownErr "KeyError" }

/-- Workflow with no binary requirements whose first action raises an
unrecognized fault. -/
def crashWorkflow : Workflow :=
  { NAME := "CrashBuilder", actions := [actionCrashing, actionNever],
    get_resolvers := [], get_validators := [], _binaries := [] }

theorem C5_witness :
    crashWorkflow.run.executed = [actionCrashing] ∧
    crashWorkflow.run.error =
      some (RunError.workflowUnknown "CrashBuilder" (some "Unpack") "KeyError") :=
  C5_unknown_fault_stops_pipeline crashWorkflow crashWorkflow [] [actionNever]
    actionCrashing "KeyError" rfl rfl
    (fun x hx => absurd hx (List.not_mem_nil x)) rfl

/-- C6: a Workflow with zero registered Actions raises the
no-actions-registered `WorkflowFailedError` (no action attributed, reason
"Workflow does not have any actions registered"), and only after the gate
has passed: when the gate fails (scan completes, some requirement
unsatisfied), the binary-validation-failed fault is raised instead. -/
theorem C6_no_actions_after_gate (w w' : Workflow) (b : List (String × BinaryPath))
    (ha : w.actions = []) (hb : (w.binariesAccess).1 = b) :
    (gatePhase w = Sum.inr w' →
      w.run.error = some (RunError.workflowFailed w.NAME none noActionsMsg) ∧
      w.run.executed = []) ∧
    ((gateScan b).2.2 = none → (∃ nb ∈ b, satisfiedEntry nb = false) →
      w.run.error = some (RunError.workflowFailed w.NAME none binaryValidationFailedMsg) ∧
      w.run.executed = []) := by
  constructor
  · intro hg
    obtain ⟨hact, hname⟩ := gatePhase_inr_fields hg
    have hrun : w.run = runInner w' := by
      unfold Workflow.run sanitize
      rw [hg]
    rw [hrun]
    unfold runInner
    rw [hact, ha, hname]
    rw [if_pos (by simp)]
    exact ⟨rfl, rfl⟩
  · intro hnoerr hunsat
    exact run_gate_unsatisfied w b hb hnoerr hunsat

/-- Workflow with no binary requirements and an empty action list. -/
def emptyPipelineWorkflow : Workflow :=
  { NAME := "EmptyBuilder", actions := [],
    get_resolvers := [], get_validators := [], _binaries := [] }

theorem C6_witness :
    emptyPipelineWorkflow.run.error =
      some (RunError.workflowFailed "EmptyBuilder" none noActionsMsg) ∧
    emptyPipelineWorkflow.run.executed = [] :=
  (C6_no_actions_after_gate emptyPipelineWorkflow emptyPipelineWorkflow [] rfl rfl).1 rfl

theorem find_in_overwritten (k : Capability) (v : WorkflowClass) :
    ∀ (r : Registry), r.any (fun p => p.1 = k) = true →
      (r.map (fun p => if p.1 = k then (k, v) else p)).find? (fun p => p.1 = k) =
        some (k, v) := by
  intro r
  induction r with
  | nil => intro h; simp at h
  | cons p t ih =>
    intro h
    by_cases hp : p.1 = k
    · simp only [List.map_cons, if_pos hp]
      exact List.find?_cons_of_pos _ (by simp)
    · have ht : t.any (fun q => q.1 = k) = true := by
        simp only [List.any_cons, Bool.or_eq_true, decide_eq_true_eq] at h
        rcases h with hh | hh
        · exact absurd hh hp
        · exact hh
      simp only [List.map_cons, if_neg hp]
      rw [List.find?_cons_of_neg _ (by simpa using hp)]
      exact ih ht

theorem find_append_fresh (k : Capability) (v : WorkflowClass) :
    ∀ (r : Registry), r.any (fun p => p.1 = k) = false →
      (r ++ [(k, v)]).find? (fun p => p.1 = k) = some (k, v) := by
  intro r
  induction r with
  | nil => simp
  | cons p t ih =>
    intro h
    simp only [List.any_cons, Bool.or_eq_false_iff, decide_eq_false_iff_not] at h
    obtain ⟨hp, ht⟩ := h
    rw [List.cons_append, List.find?_cons_of_neg _ (by simpa using hp)]
    exact ih ht

theorem registryLookup_insert (r : Registry) (k : Capability) (v : WorkflowClass) :
    registryLookup (registryInsert r k v) k = some v := by
  unfold registryInsert registryLookup
  by_cases hany : r.any (fun p => p.1 = k) = true
  · rw [if_pos hany, find_in_overwritten k v r hany]
    rfl
  · rw [if_neg hany, find_append_fresh k v r (Bool.eq_false_iff.mpr hany)]
    rfl

/-- A fully-populated Capability Key. -/
def fullCapability : Capability :=
  { language := some "python", dependency_manager := some "pip",
    application_framework := some "none" }

/-- A candidate type whose `NAME` is the empty string (still a `str`, so it
passes the metaclass `isinstance` check). -/
def emptyNameClass : WorkflowClass :=
  { cls_name := "EmptyNameWorkflow", testing := false, NAME := some "",
    CAPABILITY := some fullCapability }

/-- A Capability with absent components (the namedtuple does not enforce
population, Python fills them with `None`). -/
def partialCapability : Capability :=
  { language := some "python", dependency_manager := none, application_framework := none }

/-- A candidate type whose Capability Key is only partially populated. -/
def partialCapClass : WorkflowClass :=
  { cls_name := "PartialCapWorkflow", testing := false, NAME := some "partial",
    CAPABILITY := some partialCapability }

/-- C7 counterexample: the claim says registration fails fast unless the
type supplies a NON-EMPTY name and a FULLY-POPULATED Capability Key; but
the metaclass only checks `isinstance`, so a type with an empty-string
name, and likewise a type whose Capability has absent components, register
without any fault and are added to the registry. -/
theorem C7_counterexample :
    emptyNameClass.NAME = some "" ∧
    registerClass [] emptyNameClass = Except.ok [(fullCapability, emptyNameClass)] ∧
    partialCapClass.CAPABILITY = some partialCapability ∧
    partialCapability.dependency_manager = none ∧
    registerClass [] partialCapClass = Except.ok [(partialCapability, partialCapClass)] :=
  ⟨rfl, rfl, rfl, rfl, rfl⟩

/-- C7 (amended): for every candidate type other than the base and
test-marked ones, registration fails fast (with a `ValueError` and without
adding the type) unless `NAME` is a string — of any content, possibly
empty — and `CAPABILITY` is a `Capability` instance — whose components may
individually be absent; when both type checks pass, the type is added to
the registry under its key. -/
theorem C7_registration_type_checks (reg : Registry) (cls : WorkflowClass)
    (hskip : ¬(cls.cls_name = "BaseWorkflow" ∨ cls.testing = true)) :
    (cls.NAME = none →
      registerClass reg cls = Except.error "Workflow must provide a valid name") ∧
    (∀ nm, cls.NAME = some nm → cls.CAPABILITY = none →
      registerClass reg cls =
        Except.error ("Workflow '" ++ nm ++ "' must register valid capabilities")) ∧
    (∀ nm cap, cls.NAME = some nm → cls.CAPABILITY = some cap →
      registerClass reg cls = Except.ok (registryInsert reg cap cls)) := by
  refine ⟨?_, ?_, ?_⟩
  · intro hn
    unfold registerClass
    rw [if_neg hskip, hn]
  · intro nm hn hc
    unfold registerClass
    rw [if_neg hskip, hn, hc]
  · intro nm cap hn hc
    unfold registerClass
    rw [if_neg hskip, hn, hc]

/-- A well-formed candidate type. -/
def validClass : WorkflowClass :=
  { cls_name := "PythonPipWorkflow", testing := false, NAME := some "PythonPipBuilder",
    CAPABILITY := some fullCapability }

theorem C7_witness :
    registerClass [] validClass = Except.ok (registryInsert [] fullCapability validClass) :=
  (C7_registration_type_checks [] validClass (by decide)).2.2
    "PythonPipBuilder" fullCapability rfl rfl

/-- C8: registering two Workflow types in sequence under the same
Capability Key leaves the registry resolving that key to the
second-registered type only — the second registration silently replaces
the first mapping. -/
theorem C8_last_write_wins (reg reg1 reg2 : Registry) (k : Capability)
    (c1 c2 : WorkflowClass) (n1 n2 : String)
    (hs1 : ¬(c1.cls_name = "BaseWorkflow" ∨ c1.testing = true))
    (hn1 : c1.NAME = some n1) (hk1 : c1.CAPABILITY = some k)
    (h1 : registerClass reg c1 = Except.ok reg1)
    (hs2 : ¬(c2.cls_name = "BaseWorkflow" ∨ c2.testing = true))
    (hn2 : c2.NAME = some n2) (hk2 : c2.CAPABILITY = some k)
    (h2 : registerClass reg1 c2 = Except.ok reg2) :
    registryLookup reg2 k = some c2 := by
  have e2 : registerClass reg1 c2 = Except.ok (registryInsert reg1 k c2) := by
    unfold registerClass
    rw [if_neg hs2, hn2, hk2]
  have he : reg2 = registryInsert reg1 k c2 := by
    injection (e2.symm.trans h2) with h
    exact h.symm
  rw [he]
  exact registryLookup_insert reg1 k c2

def firstClass : WorkflowClass :=
  { cls_name := "WorkflowA", testing := false, NAME := some "A",
    CAPABILITY := some fullCapability }

def secondClass : WorkflowClass :=
  { cls_name := "WorkflowB", testing := false, NAME := some "B",
    CAPABILITY := some fullCapability }

theorem C8_witness :
    registryLookup [(fullCapability, secondClass)] fullCapability = some secondClass :=
  C8_last_write_wins [] [(fullCapability, firstClass)] [(fullCapability, secondClass)]
    fullCapability firstClass secondClass "A" "B"
    (by decide) rfl rfl rfl (by decide) rfl rfl rfl

theorem dictInsert_fresh (m : List (String × BinaryPath)) (k : String) (v : BinaryPath)
    (h : ∀ p ∈ m, p.1 ≠ k) : dictInsert m k v = m ++ [(k, v)] := by
  have hc : m.any (fun p => p.1 = k) = false := by
    rw [List.any_eq_false]
    intro p hp
    simpa using h p hp
  simp [dictInsert, hc]

theorem foldl_dictInsert_fresh :
    ∀ (l : List (Resolver × Validator)) (acc : List (String × BinaryPath)),
      (∀ rv ∈ l, ∀ p ∈ acc, p.1 ≠ rv.1.binary) →
      (l.map (fun rv => rv.1.binary)).Nodup →
      l.foldl (fun m rv => dictInsert m rv.1.binary (mkBinaryPath rv.1 rv.2 rv.1.binary []))
          acc =
        acc ++ l.map (fun rv => (rv.1.binary, mkBinaryPath rv.1 rv.2 rv.1.binary []))
  | [], acc, _, _ => by simp
  | rv :: t, acc, hfresh, hnd => by
    rw [List.foldl_cons,
      dictInsert_fresh acc rv.1.binary _ (fun p hp => hfresh rv (List.mem_cons_self rv t) p hp)]
    have hnd' : (t.map (fun rv => rv.1.binary)).Nodup := by
      rw [List.map_cons] at hnd
      exact hnd.of_cons
    have hnotin : rv.1.binary ∉ t.map (fun rv => rv.1.binary) := by
      rw [List.map_cons] at hnd
      exact (List.nodup_cons.mp hnd).1
    have hfresh' : ∀ rv2 ∈ t,
        ∀ p ∈ acc ++ [(rv.1.binary, mkBinaryPath rv.1 rv.2 rv.1.binary [])],
          p.1 ≠ rv2.1.binary := by
      intro rv2 h2 p hp
      rcases List.mem_append.mp hp with hpa | hpb
      · exact hfresh rv2 (List.mem_cons_of_mem rv h2) p hpa
      · rw [List.mem_singleton] at hpb
        subst hpb
        intro he
        have he' : rv.1.binary = rv2.1.binary := he
        have hmem : rv2.1.binary ∈ t.map (fun rv => rv.1.binary) :=
          List.mem_map_of_mem (fun rv => rv.1.binary) h2
        exact hnotin (by rw [he']; exact hmem)
    rw [foldl_dictInsert_fresh t _ hfresh' hnd']
    simp [List.map_cons]

theorem buildBinaries_nodup (resolvers : List Resolver) (validators : List Validator)
    (hnd : ((resolvers.zip validators).map (fun rv => rv.1.binary)).Nodup) :
    buildBinaries resolvers validators =
      (resolvers.zip validators).map
        (fun rv => (rv.1.binary, mkBinaryPath rv.1 rv.2 rv.1.binary [])) := by
  unfold buildBinaries
  rw [foldl_dictInsert_fresh _ [] (fun rv _ p hp => absurd hp (List.not_mem_nil p)) hnd]
  simp

/-- A workflow whose resolver extension point yields no resolvers: its
computed mapping is the empty dict, which the `binaries` property treats as
"not yet computed". -/
def noResolverWorkflow : Workflow :=
  { NAME := "NoResolvers", actions := [], get_resolvers := [], get_validators := [],
    _binaries := [] }

/-- C9 counterexample: the claim says the mapping is computed exactly once,
on first access, and every later access returns the cached mapping without
recomputation. For a workflow whose resolver extension point yields no
resolvers the computed mapping is empty, and since the property guard is
`if not self._binaries`, the compute branch (the `Bool` flag) runs again on
the second access — the extension points are re-invoked, not cached. -/
theorem C9_counterexample :
    (noResolverWorkflow.binariesAccess).2.2 = true ∧
    (((noResolverWorkflow.binariesAccess).2.1).binariesAccess).2.2 = true :=
  ⟨rfl, rfl⟩

/-- C9 (amended): on a fresh instance the first access of `binaries`
invokes the extension points and pairs resolvers with validators
positionally into a mapping keyed by each resolver's reported binary name
(shown here when those names are distinct); PROVIDED the computed mapping
is non-empty, it is cached and every later access returns it without
recomputation; when the computed mapping is empty, each access recomputes. -/
theorem C9_lazy_cached_binaries (w : Workflow) (hw : w._binaries = []) :
    (w.binariesAccess).1 = buildBinaries w.get_resolvers w.get_validators ∧
    (w.binariesAccess).2.2 = true ∧
    (buildBinaries w.get_resolvers w.get_validators ≠ [] →
      ((w.binariesAccess).2.1).binariesAccess =
        ((w.binariesAccess).1, (w.binariesAccess).2.1, false)) ∧
    (((w.get_resolvers.zip w.get_validators).map (fun rv => rv.1.binary)).Nodup →
      (w.binariesAccess).1 = (w.get_resolvers.zip w.get_validators).map
        (fun rv => (rv.1.binary, mkBinaryPath rv.1 rv.2 rv.1.binary []))) := by
  have hacc : w.binariesAccess = (buildBinaries w.get_resolvers w.get_validators,
      { w with _binaries := buildBinaries w.get_resolvers w.get_validators }, true) := by
    unfold Workflow.binariesAccess
    rw [if_pos (by simp [hw])]
  refine ⟨by rw [hacc], by rw [hacc], ?_, ?_⟩
  · intro hne
    rw [hacc]
    exact binariesAccess_of_ne_nil _ hne
  · intro hnd
    rw [hacc]
    exact buildBinaries_nodup _ _ hnd

/-- Workflow with one resolver/validator pair, used to exhibit caching. -/
def cachedWorkflow : Workflow :=
  { NAME := "Cached", actions := [], get_resolvers := [pythonResolver],
    get_validators := [mismatchValidator], _binaries := [] }

theorem C9_witness :
    ((cachedWorkflow.binariesAccess).2.1).binariesAccess =
      ((cachedWorkflow.binariesAccess).1, (cachedWorkflow.binariesAccess).2.1, false) :=
  (C9_lazy_cached_binaries cachedWorkflow rfl).2.2.1
    (by
      have e : buildBinaries cachedWorkflow.get_resolvers cachedWorkflow.get_validators =
          [("python", mkBinaryPath pythonResolver mismatchValidator "python" [])] := rfl
      rw [e]
      exact List.cons_ne_nil _ _)

theorem runActions_error_attributed :
    ∀ (wname : String) (l : List Action),
      (runActions wname l).2 = none ∨
      ∃ nm reason,
        (runActions wname l).2 = some (RunError.workflowFailed wname (some nm) reason) ∨
        (runActions wname l).2 = some (RunError.workflowUnknown wname (some nm) reason)
  | _, [] => Or.inl rfl
  | wname, a :: rest => by
    cases hx : a.execute with
    | ok =>
      rw [runActions_cons_ok hx]
      exact runActions_error_attributed wname rest
    | actionFailed r =>
      rw [runActions_cons_actionFailed hx]
      exact Or.inr ⟨a.NAME, r, Or.inl rfl⟩
    | unknownErr r =>
      rw [runActions_cons_unknown hx]
      exact Or.inr ⟨a.NAME, r, Or.inr rfl⟩

/-- C10: for every Workflow whose Binary Requirement mapping is empty (as
when its resolver extension point yields no resolvers), the gate passes
vacuously: `run()` behaves exactly as the undecorated action pipeline on
the unchanged instance — there is no Resolver or Validator left to consult
— and never raises the binary-validation-failed fault. -/
theorem C10_empty_mapping_gate_vacuous (w : Workflow) (hb : (w.binariesAccess).1 = []) :
    w.run = runInner w ∧
    w.run.error ≠ some (RunError.workflowFailed w.NAME none binaryValidationFailedMsg) := by
  have hw : w._binaries = [] := by
    by_cases hne : w._binaries = []
    · exact hne
    · rw [binariesAccess_of_ne_nil w hne] at hb
      exact absurd hb hne
  have hwid : ({ w with _binaries := ([] : List (String × BinaryPath)) }) = w := by
    cases w
    cases hw
    rfl
  have hbb : buildBinaries w.get_resolvers w.get_validators = [] := by
    have hacc : w.binariesAccess = (buildBinaries w.get_resolvers w.get_validators,
        { w with _binaries := buildBinaries w.get_resolvers w.get_validators }, true) := by
      unfold Workflow.binariesAccess
      rw [if_pos (by simp [hw])]
    rw [hacc] at hb
    exact hb
  have hacc2 : w.binariesAccess = ([], w, true) := by
    unfold Workflow.binariesAccess
    rw [if_pos (by simp [hw])]
    show (buildBinaries w.get_resolvers w.get_validators,
      { w with _binaries := buildBinaries w.get_resolvers w.get_validators }, true) = ([], w, true)
    rw [hbb, hwid]
  have hgp : gatePhase w = gateCheck w [] [] := by
    rw [gatePhase_of_noerr (by rw [hacc2]; rfl)]
    rw [hacc2]
    rfl
  have hgc : gateCheck w [] [] = Sum.inr w := by
    unfold gateCheck
    have hsb : w.setBinaries [] = w := hwid
    rw [hsb, hacc2]
    rw [if_neg (by simp)]
  have hgpw : gatePhase w = Sum.inr w := hgp.trans hgc
  have hrun : w.run = runInner w := by
    unfold Workflow.run sanitize
    rw [hgpw]
  refine ⟨hrun, ?_⟩
  rw [hrun]
  unfold runInner
  by_cases hae : w.actions.isEmpty = true
  · rw [if_pos hae]
    intro hcontra
    simp only [Option.some.injEq, RunError.workflowFailed.injEq] at hcontra
    exact absurd hcontra.2.2 (by decide)
  · rw [if_neg hae]
    rcases runActions_error_attributed w.NAME w.actions with hnone | ⟨nm, reason, hf | hu⟩
    · simp [hnone]
    · simp [hf]
    · simp [hu]

/-- Workflow with no resolvers (hence an empty mapping) and one action. -/
def noRequirementWorkflow : Workflow :=
  { NAME := "NoReqs", actions := [actionOk], get_resolvers := [], get_validators := [],
    _binaries := [] }

theorem C10_witness :
    noRequirementWorkflow.run = runInner noRequirementWorkflow ∧
    noRequirementWorkflow.run.error ≠
      some (RunError.workflowFailed "NoReqs" none binaryValidationFailedMsg) :=
  C10_empty_mapping_gate_vacuous noRequirementWorkflow rfl

end LambdaBuilders
